import Mathlib

/-!
Verification of the NNUE evaluation load/store protocol and accumulator
cache of `src/nnue/evaluate_nnue.cpp` (namespace `Eval::NNUE`).

The container format logic, the scoring cache logic and the load entry
point are translated directly from the source.  The two parameter
modules (`FeatureTransformer` and `Network`), the stream machinery and
the option table live outside the given source and are modelled from
the spec as opaque collaborators with explicit contracts.
-/

namespace NNUE

/-- Modelled from the spec: the read side of the BinaryCursor stream
abstraction (`std::istream` is not part of the given source).  `data`
holds the not-yet-consumed bytes and `fail` is the sticky failure flag
set by a read past end-of-stream. -/
structure IStream where
  data : List Nat
  fail : Bool
deriving DecidableEq

/-- Modelled from the spec: BinaryCursor little-endian read of a u32
(`read_little_endian<std::uint32_t>`, defined in a header outside the
given source).  Reading past end-of-stream sets the failure flag and no
partial value is ever returned. -/
def read_little_endian (s : IStream) : Nat × IStream :=
  if s.fail then (0, s)
  else
    match s.data with
    | b0 :: b1 :: b2 :: b3 :: rest =>
        (b0 + 256 * b1 + 65536 * b2 + 16777216 * b3, ⟨rest, false⟩)
    | _ => (0, ⟨[], true⟩)

/-- Modelled from the spec: BinaryCursor read of a raw byte block
(`std::istream::read`).  A short read consumes what is available and
sets the failure flag. -/
def readBytes (n : Nat) (s : IStream) : List Nat × IStream :=
  if s.fail then ([], s)
  else if n ≤ s.data.length then (s.data.take n, ⟨s.data.drop n, false⟩)
  else (s.data, ⟨[], true⟩)

/-- Little-endian byte encoding of a u32 value (taken mod 2^32), as
emitted by `stream.write` of a `std::uint32_t` object. -/
def toLE32 (v : Nat) : List Nat :=
  [v % 256, v / 256 % 256, v / 65536 % 256, v / 16777216 % 256]

/-- Byte encoding of a character string, for the architecture string. -/
def strBytes (s : String) : List Nat :=
  s.toList.map Char.toNat

/-- Modelled from the spec: the ParameterModule capability interface.
`FeatureTransformer` and `Network` are opaque computational units whose
parameter storage is a raw byte buffer of `paramSize` bytes;
`readParams` takes the current storage and the stream and returns
success, the new storage and the advanced stream. -/
structure ModuleImpl where
  getHashValue : Nat
  getStructureString : List Nat
  paramSize : Nat
  writeParams : List Nat → List Nat
  readParams : List Nat → IStream → Bool × List Nat × IStream

namespace Detail

/-- `Detail::Initialize`: allocate the module's parameter storage and
zero-fill it (`std_aligned_alloc` followed by `std::memset(_, 0, sizeof(T))`). -/
def Initialize (m : ModuleImpl) : List Nat :=
  List.replicate m.paramSize 0

/-- `Detail::ReadParameters`: read the module sub-header hash, fail if
the stream failed or the hash differs from the module's own
`GetHashValue`, otherwise let the module read its parameters. -/
def ReadParameters (m : ModuleImpl) (st : List Nat) (s : IStream) :
    Bool × List Nat × IStream :=
  let p := read_little_endian s
  if p.2.fail ∨ p.1 ≠ m.getHashValue then (false, st, p.2)
  else m.readParams st p.2

/-- `Detail::WriteParameters`: write the module's `GetHashValue` as a
u32 sub-header, then the module's serialized parameters. -/
def WriteParameters (m : ModuleImpl) (st : List Nat) : List Nat :=
  toLE32 m.getHashValue ++ m.writeParams st

end Detail

/-- `GetArchitectureString`: concatenation of both modules' structure
strings with fixed labels. -/
def GetArchitectureString (m1 m2 : ModuleImpl) : List Nat :=
  strBytes "Features=" ++ m1.getStructureString ++
    strBytes ",Network=" ++ m2.getStructureString

/-- `ReadHeader`: read `version`, `hash_value` and `size` (three u32s),
fail if the stream failed or the version differs from `kVersion`, then
read the `size`-byte architecture string.  Returns
(success, hash_value, architecture, stream). -/
def ReadHeader (kVersion : Nat) (s : IStream) :
    Bool × Nat × List Nat × IStream :=
  let p1 := read_little_endian s
  let p2 := read_little_endian p1.2
  let p3 := read_little_endian p2.2
  if p3.2.fail ∨ p1.1 ≠ kVersion then (false, p2.1, [], p3.2)
  else
    let p4 := readBytes p3.1 p3.2
    (!p4.2.fail, p2.1, p4.1, p4.2)

/-- `WriteHeader`: write `kVersion`, `hash_value`, the architecture
string's length as u32 and then that many bytes of the string. -/
def WriteHeader (kVersion hash_value : Nat) (architecture : List Nat) :
    List Nat :=
  let size := architecture.length % 4294967296
  toLE32 kVersion ++ toLE32 hash_value ++ toLE32 size ++ architecture.take size

/-- `ReadParameters` (container level): read and check the header,
compare the header hash with `kHashValue`, read both modules in fixed
order through `Detail.ReadParameters`, and finally require the stream
to be good and exactly exhausted (`stream.peek() == eof`).  Returns
(success, feature-transformer state, network state, stream). -/
def ReadParameters (kVersion kHashValue : Nat) (m1 m2 : ModuleImpl)
    (st1 st2 : List Nat) (s : IStream) :
    Bool × List Nat × List Nat × IStream :=
  let h := ReadHeader kVersion s
  if h.1 = false then (false, st1, st2, h.2.2.2)
  else if h.2.1 ≠ kHashValue then (false, st1, st2, h.2.2.2)
  else
    let r1 := Detail.ReadParameters m1 st1 h.2.2.2
    if r1.1 = false then (false, r1.2.1, st2, r1.2.2)
    else
      let r2 := Detail.ReadParameters m2 st2 r1.2.2
      if r2.1 = false then (false, r1.2.1, r2.2.1, r2.2.2)
      else (!r2.2.2.fail && r2.2.2.data.isEmpty, r1.2.1, r2.2.1, r2.2.2)

/-- `WriteParameters` (container level): write the header with
`kHashValue` and the architecture string, then both module blocks in
fixed order. -/
def WriteParameters (kVersion kHashValue : Nat) (m1 m2 : ModuleImpl)
    (st1 st2 : List Nat) : List Nat :=
  WriteHeader kVersion kHashValue (GetArchitectureString m1 m2) ++
    Detail.WriteParameters m1 st1 ++ Detail.WriteParameters m2 st2

/-- The process-wide mutable state of the evaluation service: the two
module parameter buffers behind `feature_transformer` and `network`,
and the evaluation file name. -/
structure GlobalState where
  feature_transformer : List Nat
  network : List Nat
  fileName : String
deriving DecidableEq

/-- `Initialize`: re-initialize both modules to freshly allocated,
zero-filled parameter storage. -/
def Initialize (m1 m2 : ModuleImpl) (g : GlobalState) : GlobalState :=
  { g with
    feature_transformer := Detail.Initialize m1
    network := Detail.Initialize m2 }

/-- Modelled from the spec: opening the evaluation file.  `none` stands
for a source that cannot be opened, which yields a stream already in
the failed state; `some bs` yields a good stream over the file bytes. -/
def openStream (source : Option (List Nat)) : IStream :=
  match source with
  | some bs => ⟨bs, false⟩
  | none => ⟨[], true⟩

/-- `load_eval_file`: first `Initialize()`, then — if the
`SkipLoadingEval` option is set — report success without touching the
source; otherwise record the file name, open the stream and run the
container-level `ReadParameters` on the freshly initialized module
states. -/
def load_eval_file (kVersion kHashValue : Nat) (m1 m2 : ModuleImpl)
    (skipLoadingEval : Bool) (evalFile : String)
    (source : Option (List Nat)) (g : GlobalState) : Bool × GlobalState :=
  let g1 := Initialize m1 m2 g
  if skipLoadingEval then (true, g1)
  else
    let g2 := { g1 with fileName := evalFile }
    let r := ReadParameters kVersion kHashValue m1 m2
      g2.feature_transformer g2.network (openStream source)
    (r.1, { g2 with feature_transformer := r.2.1, network := r.2.2.1 })

/-- The per-position accumulator cache: the last computed score and its
validity flag (`computed_score`). -/
structure Accumulator where
  score : Int
  computed_score : Bool
deriving DecidableEq

/-- A position: its state's accumulator plus the rest of the position
data (opaque to this core), which the transform stage may read and
update. -/
structure Position (α : Type) where
  accumulator : Accumulator
  rest : α
deriving DecidableEq

/-- Observable invocations of the two opaque computational stages. -/
inductive EvalEv where
  | transform
  | propagate
deriving DecidableEq

/-- Modelled from the spec: the score scaling divisor `FV_SCALE` from
the companion header (not part of the given source). -/
def FV_SCALE : Int := 16

/-- `ComputeScore`: if not refreshing and the accumulator's score is
computed, return the cached score; otherwise run the transform stage,
run the propagation stage on its output, scale, store the score in the
accumulator, mark it computed and return it.  The third component
records which stages were invoked, in order. -/
def ComputeScore {α : Type}
    (transform : Position α → Bool → List Int × α)
    (propagate : List Int → Int)
    (pos : Position α) (refresh : Bool) : Int × Position α × List EvalEv :=
  if ¬refresh ∧ pos.accumulator.computed_score then
    (pos.accumulator.score, pos, [])
  else
    let t := transform pos refresh
    let output := propagate t.1
    let score := Int.tdiv output FV_SCALE
    (score,
      { accumulator := { score := score, computed_score := true },
        rest := t.2 },
      [EvalEv.transform, EvalEv.propagate])

/-- `evaluate`: differential calculation, `ComputeScore` with
`refresh = false`. -/
def evaluate {α : Type} (transform : Position α → Bool → List Int × α)
    (propagate : List Int → Int) (pos : Position α) :
    Int × Position α × List EvalEv :=
  ComputeScore transform propagate pos false

/-- `compute_eval`: full calculation, `ComputeScore` with
`refresh = true`. -/
def compute_eval {α : Type} (transform : Position α → Bool → List Int × α)
    (propagate : List Int → Int) (pos : Position α) :
    Int × Position α × List EvalEv :=
  ComputeScore transform propagate pos true

/-- The serialize/deserialize symmetry contract of a ParameterModule:
deserialization of a stream that starts with the serialization of a
state succeeds, recovers exactly that state and consumes exactly the
bytes serialization produced. -/
def ModSym (m : ModuleImpl) : Prop :=
  ∀ d st rest,
    m.readParams d ⟨m.writeParams st ++ rest, false⟩ = (true, st, ⟨rest, false⟩)

/-- The symmetry contract at one state: deserialization of a stream
starting with the serialization of `st` recovers `st` and consumes
exactly its bytes. -/
def ReadsExactly (m : ModuleImpl) (st : List Nat) : Prop :=
  ∀ d rest,
    m.readParams d ⟨m.writeParams st ++ rest, false⟩ = (true, st, ⟨rest, false⟩)

/-- A module rejects a good stream holding fewer bytes than the
serialization of `st`. -/
def FailsShort (m : ModuleImpl) (st : List Nat) : Prop :=
  ∀ d s, s.fail = false → s.data.length < (m.writeParams st).length →
    (m.readParams d s).1 = false

/-- A concrete test module with a length-prefixed parameter encoding:
serialization is the storage length followed by the storage bytes. -/
def lpMod (h : Nat) : ModuleImpl where
  getHashValue := h
  getStructureString := [70]
  paramSize := 4
  writeParams := fun st => st.length :: st
  readParams := fun d s =>
    if s.fail then (false, d, s)
    else
      match s.data with
      | [] => (false, d, ⟨[], true⟩)
      | n :: r =>
          if n ≤ r.length then (true, r.take n, ⟨r.drop n, false⟩)
          else (false, d, ⟨[], true⟩)

/-- A concrete test module with a fixed two-byte parameter encoding. -/
def fix2Mod (h : Nat) : ModuleImpl where
  getHashValue := h
  getStructureString := [78]
  paramSize := 2
  writeParams := fun st => [st.headD 0, st.getD 1 0]
  readParams := fun d s =>
    if s.fail then (false, d, s)
    else if 2 ≤ s.data.length then
      (true, s.data.take 2, ⟨s.data.drop 2, false⟩)
    else (false, d, ⟨[], true⟩)

theorem rle_append (v : Nat) (rest : List Nat) :
    read_little_endian ⟨toLE32 v ++ rest, false⟩ = (v % 4294967296, ⟨rest, false⟩) := by
  simp only [read_little_endian, toLE32, List.cons_append, List.nil_append,
    Bool.false_eq_true, if_false, Prod.mk.injEq]
  constructor
  · omega
  · trivial

theorem rle_append_lt (v : Nat) (hv : v < 4294967296) (rest : List Nat) :
    read_little_endian ⟨toLE32 v ++ rest, false⟩ = (v, ⟨rest, false⟩) := by
  rw [rle_append, Nat.mod_eq_of_lt hv]

theorem rle_fail (d : List Nat) : read_little_endian ⟨d, true⟩ = (0, ⟨d, true⟩) := by
  simp [read_little_endian]

theorem rle_short (d : List Nat) (h : d.length < 4) :
    (read_little_endian ⟨d, false⟩).2 = ⟨[], true⟩ := by
  rcases d with _ | ⟨a, _ | ⟨b, _ | ⟨c, _ | ⟨e, tl⟩⟩⟩⟩
  · simp [read_little_endian]
  · simp [read_little_endian]
  · simp [read_little_endian]
  · simp [read_little_endian]
  · simp at h; omega

theorem readBytes_append (bs rest : List Nat) :
    readBytes bs.length ⟨bs ++ rest, false⟩ = (bs, ⟨rest, false⟩) := by
  simp [readBytes, List.take_left, List.drop_left]

theorem readBytes_short (n : Nat) (d : List Nat) (h : d.length < n) :
    (readBytes n ⟨d, false⟩).2 = ⟨[], true⟩ := by
  simp only [readBytes, Bool.false_eq_true, if_false]
  rw [if_neg (by omega)]

theorem modSym_readsExactly (m : ModuleImpl) (hm : ModSym m) (st : List Nat) :
    ReadsExactly m st :=
  fun d rest => hm d st rest

theorem detail_read_write (m : ModuleImpl) (hlt : m.getHashValue < 4294967296)
    (st0 st rest : List Nat) (hm : ReadsExactly m st) :
    Detail.ReadParameters m st0 ⟨Detail.WriteParameters m st ++ rest, false⟩ =
      (true, st, ⟨rest, false⟩) := by
  unfold Detail.ReadParameters Detail.WriteParameters
  rw [List.append_assoc]
  simp only [rle_append_lt m.getHashValue hlt]
  simp [hm st0 rest]

theorem readHeader_roundtrip (kV hv : Nat) (A rest : List Nat)
    (hkv : kV < 4294967296) (hhv : hv < 4294967296) (hA : A.length < 4294967296) :
    ReadHeader kV ⟨toLE32 kV ++ (toLE32 hv ++ (toLE32 A.length ++ (A ++ rest))), false⟩ =
      (true, hv, A, ⟨rest, false⟩) := by
  unfold ReadHeader
  simp only [rle_append_lt kV hkv, rle_append_lt hv hhv, rle_append_lt A.length hA]
  simp [readBytes_append A rest]

theorem readParameters_write_append (kV kH : Nat) (m1 m2 : ModuleImpl)
    (st1 st2 d1 d2 : List Nat) (tail : List Nat)
    (h1 : ReadsExactly m1 st1) (h2 : ReadsExactly m2 st2)
    (hv : kV < 4294967296) (hh : kH < 4294967296)
    (hm1 : m1.getHashValue < 4294967296) (hm2 : m2.getHashValue < 4294967296)
    (harch : (GetArchitectureString m1 m2).length < 4294967296) :
    ReadParameters kV kH m1 m2 d1 d2
        ⟨WriteParameters kV kH m1 m2 st1 st2 ++ tail, false⟩ =
      (tail.isEmpty, st1, st2, ⟨tail, false⟩) := by
  simp only [WriteParameters, WriteHeader, Nat.mod_eq_of_lt harch, List.take_length]
  simp only [List.append_assoc]
  unfold ReadParameters
  rw [readHeader_roundtrip kV kH (GetArchitectureString m1 m2) _ hv hh harch]
  have hr1 := detail_read_write m1 hm1 d1 st1
    (Detail.WriteParameters m2 st2 ++ tail) h1
  have hr2 := detail_read_write m2 hm2 d2 st2 tail h2
  simp [hr1, hr2]

theorem lpMod_sym (h : Nat) : ModSym (lpMod h) := by
  intro d st rest
  simp [lpMod, List.take_left, List.drop_left]

theorem fix2_readsExactly (h a b : Nat) : ReadsExactly (fix2Mod h) [a, b] := by
  intro d rest
  simp [fix2Mod]

theorem fix2_failsShort (h a b : Nat) : FailsShort (fix2Mod h) [a, b] := by
  intro d s hf hlen
  obtain ⟨data, fl⟩ := s
  simp at hf
  subst hf
  simp [fix2Mod] at hlen ⊢
  rw [if_neg (by omega)]

/-- C1: writing a populated container and reading the produced bytes back
into freshly initialized modules succeeds and reproduces the exact
parameter state of both modules, given the serialize/deserialize
symmetry contract of each module and the u32 ranges of the header
constants. -/
theorem roundtrip_write_read (kVersion kHashValue : Nat) (m1 m2 : ModuleImpl)
    (st1 st2 : List Nat) (hsym1 : ModSym m1) (hsym2 : ModSym m2)
    (hv : kVersion < 4294967296) (hh : kHashValue < 4294967296)
    (hm1 : m1.getHashValue < 4294967296) (hm2 : m2.getHashValue < 4294967296)
    (harch : (GetArchitectureString m1 m2).length < 4294967296) :
    ReadParameters kVersion kHashValue m1 m2
        (Detail.Initialize m1) (Detail.Initialize m2)
        ⟨WriteParameters kVersion kHashValue m1 m2 st1 st2, false⟩ =
      (true, st1, st2, ⟨[], false⟩) := by
  have := readParameters_write_append kVersion kHashValue m1 m2 st1 st2
    (Detail.Initialize m1) (Detail.Initialize m2) []
    (modSym_readsExactly m1 hsym1 st1) (modSym_readsExactly m2 hsym2 st2)
    hv hh hm1 hm2 harch
  simpa using this

/-- Witness for C1 at a concrete pair of modules and parameter states. -/
theorem roundtrip_write_read_witness :
    ReadParameters 1 2 (lpMod 3) (lpMod 4)
        (Detail.Initialize (lpMod 3)) (Detail.Initialize (lpMod 4))
        ⟨WriteParameters 1 2 (lpMod 3) (lpMod 4) [9] [8, 7], false⟩ =
      (true, [9], [8, 7], ⟨[], false⟩) :=
  roundtrip_write_read 1 2 (lpMod 3) (lpMod 4) [9] [8, 7]
    (lpMod_sym 3) (lpMod_sym 4) (by decide) (by decide) (by decide) (by decide)
    (by decide)

/-- C2: when the position's accumulator already holds a computed score,
the incremental query `evaluate` returns that stored score, invokes
neither the transform stage nor the propagation stage, and leaves the
position (accumulator included) unchanged. -/
theorem evaluate_cache_hit {α : Type}
    (transform : Position α → Bool → List Int × α)
    (propagate : List Int → Int) (pos : Position α)
    (hvalid : pos.accumulator.computed_score = true) :
    evaluate transform propagate pos = (pos.accumulator.score, pos, []) := by
  simp [evaluate, ComputeScore, hvalid]

/-- Witness for C2 at a concrete position with a valid cache entry. -/
theorem evaluate_cache_hit_witness :
    evaluate (fun (_ : Position Unit) (_ : Bool) => (([] : List Int), ()))
        (fun _ => 0) ⟨⟨5, true⟩, ()⟩ =
      (5, ⟨⟨5, true⟩, ()⟩, []) :=
  evaluate_cache_hit _ _ _ rfl

/-- C3: the full query `compute_eval` invokes the transform stage and
then the propagation stage regardless of the accumulator's validity
flag, stores the resulting scaled score into the accumulator, marks it
computed, and returns that score. -/
theorem compute_eval_full {α : Type}
    (transform : Position α → Bool → List Int × α)
    (propagate : List Int → Int) (pos : Position α) :
    (compute_eval transform propagate pos).2.2 =
        [EvalEv.transform, EvalEv.propagate] ∧
    (compute_eval transform propagate pos).2.1.accumulator.computed_score =
        true ∧
    (compute_eval transform propagate pos).2.1.accumulator.score =
        (compute_eval transform propagate pos).1 ∧
    (compute_eval transform propagate pos).1 =
        Int.tdiv (propagate (transform pos true).1) FV_SCALE := by
  simp [compute_eval, ComputeScore]

/-- C7: with the SkipLoadingEval switch set, `load_eval_file` reports
success for every file name and every source — including a source that
cannot be opened — and its result does not depend on the source at all:
it is exactly the re-initialized state. -/
theorem load_eval_file_skip (kVersion kHashValue : Nat) (m1 m2 : ModuleImpl)
    (evalFile : String) (source : Option (List Nat)) (g : GlobalState) :
    load_eval_file kVersion kHashValue m1 m2 true evalFile source g =
      (true, Initialize m1 m2 g) := by
  simp [load_eval_file]

/-- C8: a freshly initialized module, before any deserialize call, has
all of its parameter storage zero-filled (and of the declared size), in
both module slots. -/
theorem initialize_zeroed (m1 m2 : ModuleImpl) (g : GlobalState) :
    ((Initialize m1 m2 g).feature_transformer.all fun b => b == 0) = true ∧
    (Initialize m1 m2 g).feature_transformer.length = m1.paramSize ∧
    ((Initialize m1 m2 g).network.all fun b => b == 0) = true ∧
    (Initialize m1 m2 g).network.length = m2.paramSize := by
  refine ⟨?_, by simp [Initialize, Detail.Initialize], ?_,
    by simp [Initialize, Detail.Initialize]⟩ <;>
  · simp only [Initialize, Detail.Initialize, List.all_eq_true]
    intro b hb
    simp [List.eq_of_mem_replicate hb]

/-- C10: every call to `load_eval_file` re-initializes both modules
before reading, so the resulting truth value and module states are
independent of whatever parameters were loaded before the call; on the
skip path the modules are left exactly zero-filled. -/
theorem load_eval_file_resets (kVersion kHashValue : Nat) (m1 m2 : ModuleImpl)
    (skip : Bool) (evalFile : String) (source : Option (List Nat))
    (g g2 : GlobalState) :
    (load_eval_file kVersion kHashValue m1 m2 skip evalFile source g).1 =
      (load_eval_file kVersion kHashValue m1 m2 skip evalFile source g2).1 ∧
    (load_eval_file kVersion kHashValue m1 m2 skip evalFile source
        g).2.feature_transformer =
      (load_eval_file kVersion kHashValue m1 m2 skip evalFile source
        g2).2.feature_transformer ∧
    (load_eval_file kVersion kHashValue m1 m2 skip evalFile source g).2.network =
      (load_eval_file kVersion kHashValue m1 m2 skip evalFile source
        g2).2.network ∧
    (load_eval_file kVersion kHashValue m1 m2 true evalFile source
        g).2.feature_transformer = Detail.Initialize m1 ∧
    (load_eval_file kVersion kHashValue m1 m2 true evalFile source
        g).2.network = Detail.Initialize m2 := by
  cases skip <;> simp [load_eval_file, Initialize]

/-- C4 (as stated) is false: on a wrong-version stream the read does
fail, but only after the model_hash and architecture-length fields have
been consumed — here the failing read leaves nothing of the 12-byte
stream, although 8 bytes followed the version field. -/
theorem version_gate_counterexample :
    (ReadParameters 1 2 (lpMod 3) (lpMod 4) [] []
        ⟨toLE32 7 ++ toLE32 2 ++ toLE32 0, false⟩).1 = false ∧
    (ReadParameters 1 2 (lpMod 3) (lpMod 4) [] []
        ⟨toLE32 7 ++ toLE32 2 ++ toLE32 0, false⟩).2.2.2.data = [] ∧
    (toLE32 7 ++ toLE32 2 ++ toLE32 0).drop 4 ≠ [] := by
  decide

/-- C4 (amended): for every stream whose leading u32 differs from the
implementation's version, the container read fails with both module
states untouched, for every pair of modules — no architecture bytes and
no module bytes are read and neither deserialize runs — but the
model_hash and architecture-length fields are consumed (read and
discarded) before the version check: the resulting stream is the input
advanced by exactly the three header u32 reads. -/
theorem version_gate (kVersion kHashValue : Nat) (m1 m2 : ModuleImpl)
    (st1 st2 : List Nat) (s : IStream)
    (hver : (read_little_endian s).1 ≠ kVersion) :
    ReadParameters kVersion kHashValue m1 m2 st1 st2 s =
      (false, st1, st2,
        (read_little_endian (read_little_endian (read_little_endian s).2).2).2) := by
  simp [ReadParameters, ReadHeader, hver]

/-- Witness for C4 (amended) on a concrete wrong-version stream. -/
theorem version_gate_witness :
    ReadParameters 1 2 (lpMod 3) (lpMod 4) [1] [2]
        ⟨toLE32 7 ++ toLE32 2 ++ toLE32 0 ++ [9], false⟩ =
      (false, [1], [2], ⟨[9], false⟩) :=
  (version_gate 1 2 (lpMod 3) (lpMod 4) [1] [2]
    ⟨toLE32 7 ++ toLE32 2 ++ toLE32 0 ++ [9], false⟩ (by decide)).trans (by decide)

theorem detail_hash_mismatch (m : ModuleImpl) (st : List Nat) (s s3 : IStream)
    (h2v : Nat) (hrle : read_little_endian s = (h2v, s3))
    (hfail : s3.fail = false) (hne : h2v ≠ m.getHashValue) :
    Detail.ReadParameters m st s = (false, st, s3) := by
  simp [Detail.ReadParameters, hrle, hfail, hne]

/-- C5: hash gates are all-or-nothing.  (1) With a correct version, a
container-hash mismatch fails the read with both module states
untouched and no module bytes consumed, whatever the modules are.
(2) A first-module sub-header hash mismatch fails the whole read there,
independent of the second module.  (3) A second-module sub-header hash
mismatch fails the whole read even though the first module was valid.
(4) and (5): a deserialize failure of either module is propagated as
failure of the whole read — a file is never partially accepted. -/
theorem hash_gates (kVersion kHashValue : Nat) :
    (∀ (m1 m2 : ModuleImpl) (st1 st2 : List Nat) (s : IStream) (hv : Nat)
        (arch : List Nat) (s1 : IStream),
        ReadHeader kVersion s = (true, hv, arch, s1) → hv ≠ kHashValue →
        ReadParameters kVersion kHashValue m1 m2 st1 st2 s =
          (false, st1, st2, s1)) ∧
    (∀ (m1 m2 : ModuleImpl) (st1 st2 : List Nat) (s : IStream)
        (arch : List Nat) (s1 s2 : IStream) (h1v : Nat),
        ReadHeader kVersion s = (true, kHashValue, arch, s1) →
        read_little_endian s1 = (h1v, s2) → s2.fail = false →
        h1v ≠ m1.getHashValue →
        ReadParameters kVersion kHashValue m1 m2 st1 st2 s =
          (false, st1, st2, s2)) ∧
    (∀ (m1 m2 : ModuleImpl) (st1 st2 : List Nat) (s : IStream)
        (arch : List Nat) (s1 s2 s3 : IStream) (st1a : List Nat) (h2v : Nat),
        ReadHeader kVersion s = (true, kHashValue, arch, s1) →
        Detail.ReadParameters m1 st1 s1 = (true, st1a, s2) →
        read_little_endian s2 = (h2v, s3) → s3.fail = false →
        h2v ≠ m2.getHashValue →
        ReadParameters kVersion kHashValue m1 m2 st1 st2 s =
          (false, st1a, st2, s3)) ∧
    (∀ (m1 m2 : ModuleImpl) (st1 st2 : List Nat) (s : IStream)
        (arch : List Nat) (s1 s2 : IStream) (st1a : List Nat),
        ReadHeader kVersion s = (true, kHashValue, arch, s1) →
        Detail.ReadParameters m1 st1 s1 = (false, st1a, s2) →
        ReadParameters kVersion kHashValue m1 m2 st1 st2 s =
          (false, st1a, st2, s2)) ∧
    (∀ (m1 m2 : ModuleImpl) (st1 st2 : List Nat) (s : IStream)
        (arch : List Nat) (s1 s2 s3 : IStream) (st1a st2a : List Nat),
        ReadHeader kVersion s = (true, kHashValue, arch, s1) →
        Detail.ReadParameters m1 st1 s1 = (true, st1a, s2) →
        Detail.ReadParameters m2 st2 s2 = (false, st2a, s3) →
        ReadParameters kVersion kHashValue m1 m2 st1 st2 s =
          (false, st1a, st2a, s3)) := by
  refine ⟨?_, ?_, ?_, ?_, ?_⟩
  · intro m1 m2 st1 st2 s hv arch s1 hhd hne
    simp [ReadParameters, hhd, hne]
  · intro m1 m2 st1 st2 s arch s1 s2 h1v hhd hrle hfail hne
    have hd1 := detail_hash_mismatch m1 st1 s1 s2 h1v hrle hfail hne
    simp [ReadParameters, hhd, hd1]
  · intro m1 m2 st1 st2 s arch s1 s2 s3 st1a h2v hhd hd1 hrle hfail hne
    have hd2 := detail_hash_mismatch m2 st2 s2 s3 h2v hrle hfail hne
    simp [ReadParameters, hhd, hd1, hd2]
  · intro m1 m2 st1 st2 s arch s1 s2 st1a hhd hd1
    simp [ReadParameters, hhd, hd1]
  · intro m1 m2 st1 st2 s arch s1 s2 s3 st1a st2a hhd hd1 hd2
    simp [ReadParameters, hhd, hd1, hd2]

/-- Witness for C5: each of the five gates exercised on a concrete
stream with the two-byte test modules (hashes 5 and 6, container hash 3,
version 1). -/
theorem hash_gates_witness :
    ReadParameters 1 3 (fix2Mod 5) (fix2Mod 6) [0] [1]
        ⟨[1, 0, 0, 0, 9, 0, 0, 0, 0, 0, 0, 0], false⟩ =
      (false, [0], [1], ⟨[], false⟩) ∧
    ReadParameters 1 3 (fix2Mod 5) (fix2Mod 6) [0] [1]
        ⟨[1, 0, 0, 0, 3, 0, 0, 0, 0, 0, 0, 0, 9, 0, 0, 0], false⟩ =
      (false, [0], [1], ⟨[], false⟩) ∧
    ReadParameters 1 3 (fix2Mod 5) (fix2Mod 6) [0] [1]
        ⟨[1, 0, 0, 0, 3, 0, 0, 0, 0, 0, 0, 0, 5, 0, 0, 0, 7, 8, 9, 0, 0, 0],
          false⟩ =
      (false, [7, 8], [1], ⟨[], false⟩) ∧
    ReadParameters 1 3 (fix2Mod 5) (fix2Mod 6) [0] [1]
        ⟨[1, 0, 0, 0, 3, 0, 0, 0, 0, 0, 0, 0, 5, 0, 0, 0, 7], false⟩ =
      (false, [0], [1], ⟨[], true⟩) ∧
    ReadParameters 1 3 (fix2Mod 5) (fix2Mod 6) [0] [1]
        ⟨[1, 0, 0, 0, 3, 0, 0, 0, 0, 0, 0, 0, 5, 0, 0, 0, 7, 8, 6, 0, 0, 0, 9],
          false⟩ =
      (false, [7, 8], [1], ⟨[], true⟩) := by
  refine ⟨?_, ?_, ?_, ?_, ?_⟩
  · exact (hash_gates 1 3).1 (fix2Mod 5) (fix2Mod 6) [0] [1] _ 9 [] ⟨[], false⟩
      (by decide) (by decide)
  · exact (hash_gates 1 3).2.1 (fix2Mod 5) (fix2Mod 6) [0] [1] _ []
      ⟨[9, 0, 0, 0], false⟩ ⟨[], false⟩ 9 (by decide) (by decide) rfl (by decide)
  · exact (hash_gates 1 3).2.2.1 (fix2Mod 5) (fix2Mod 6) [0] [1] _ []
      ⟨[5, 0, 0, 0, 7, 8, 9, 0, 0, 0], false⟩ ⟨[9, 0, 0, 0], false⟩
      ⟨[], false⟩ [7, 8] 9 (by decide) (by decide) (by decide) rfl (by decide)
  · exact (hash_gates 1 3).2.2.2.1 (fix2Mod 5) (fix2Mod 6) [0] [1] _ []
      ⟨[5, 0, 0, 0, 7], false⟩ ⟨[], true⟩ [0] (by decide) (by decide)
  · exact (hash_gates 1 3).2.2.2.2 (fix2Mod 5) (fix2Mod 6) [0] [1] _ []
      ⟨[5, 0, 0, 0, 7, 8, 6, 0, 0, 0, 9], false⟩ ⟨[6, 0, 0, 0, 9], false⟩
      ⟨[], true⟩ [7, 8] [1] (by decide) (by decide) (by decide)

/-- C9: two input files that differ only in the content bytes of the
architecture-description field (same length field, identical bytes
everywhere else) are either both accepted or both rejected, with the
same resulting module states — the description's content has no effect
on parsing. -/
theorem arch_string_noninterference (kVersion kHashValue : Nat)
    (m1 m2 : ModuleImpl) (st1 st2 : List Nat) (v hv : Nat)
    (arch1 arch2 post : List Nat)
    (hlen : arch1.length = arch2.length) (hlt : arch1.length < 4294967296) :
    ((ReadParameters kVersion kHashValue m1 m2 st1 st2
        ⟨toLE32 v ++ (toLE32 hv ++ (toLE32 arch1.length ++ (arch1 ++ post))),
          false⟩).1 =
      (ReadParameters kVersion kHashValue m1 m2 st1 st2
        ⟨toLE32 v ++ (toLE32 hv ++ (toLE32 arch1.length ++ (arch2 ++ post))),
          false⟩).1) ∧
    ((ReadParameters kVersion kHashValue m1 m2 st1 st2
        ⟨toLE32 v ++ (toLE32 hv ++ (toLE32 arch1.length ++ (arch1 ++ post))),
          false⟩).2.1 =
      (ReadParameters kVersion kHashValue m1 m2 st1 st2
        ⟨toLE32 v ++ (toLE32 hv ++ (toLE32 arch1.length ++ (arch2 ++ post))),
          false⟩).2.1) ∧
    ((ReadParameters kVersion kHashValue m1 m2 st1 st2
        ⟨toLE32 v ++ (toLE32 hv ++ (toLE32 arch1.length ++ (arch1 ++ post))),
          false⟩).2.2.1 =
      (ReadParameters kVersion kHashValue m1 m2 st1 st2
        ⟨toLE32 v ++ (toLE32 hv ++ (toLE32 arch1.length ++ (arch2 ++ post))),
          false⟩).2.2.1) := by
  have hrb2 : readBytes arch1.length ⟨arch2 ++ post, false⟩ =
      (arch2, ⟨post, false⟩) := by
    rw [hlen]; exact readBytes_append arch2 post
  by_cases hq : v % 4294967296 = kVersion
  · have hH1 : ReadHeader kVersion
        ⟨toLE32 v ++ (toLE32 hv ++ (toLE32 arch1.length ++ (arch1 ++ post))),
          false⟩ = (true, hv % 4294967296, arch1, ⟨post, false⟩) := by
      unfold ReadHeader
      simp only [rle_append, Nat.mod_eq_of_lt hlt]
      simp [readBytes_append, hq]
    have hH2 : ReadHeader kVersion
        ⟨toLE32 v ++ (toLE32 hv ++ (toLE32 arch1.length ++ (arch2 ++ post))),
          false⟩ = (true, hv % 4294967296, arch2, ⟨post, false⟩) := by
      unfold ReadHeader
      simp only [rle_append, Nat.mod_eq_of_lt hlt]
      simp [hrb2, hq]
    simp only [ReadParameters, hH1, hH2]
    exact ⟨trivial, trivial, trivial⟩
  · have hH1 : ReadHeader kVersion
        ⟨toLE32 v ++ (toLE32 hv ++ (toLE32 arch1.length ++ (arch1 ++ post))),
          false⟩ = (false, hv % 4294967296, [], ⟨arch1 ++ post, false⟩) := by
      unfold ReadHeader
      simp only [rle_append, Nat.mod_eq_of_lt hlt]
      simp [hq]
    have hH2 : ReadHeader kVersion
        ⟨toLE32 v ++ (toLE32 hv ++ (toLE32 arch1.length ++ (arch2 ++ post))),
          false⟩ = (false, hv % 4294967296, [], ⟨arch2 ++ post, false⟩) := by
      unfold ReadHeader
      simp only [rle_append, Nat.mod_eq_of_lt hlt]
      simp [hq]
    simp only [ReadParameters, hH1, hH2]
    simp

/-- Witness for C9 on two concrete one-byte architecture strings. -/
theorem arch_string_noninterference_witness :
    ((ReadParameters 1 3 (fix2Mod 5) (fix2Mod 6) [] []
        ⟨toLE32 1 ++ (toLE32 3 ++ (toLE32 ([65] : List Nat).length ++
          ([65] ++ []))), false⟩).1 =
      (ReadParameters 1 3 (fix2Mod 5) (fix2Mod 6) [] []
        ⟨toLE32 1 ++ (toLE32 3 ++ (toLE32 ([65] : List Nat).length ++
          ([66] ++ []))), false⟩).1) ∧
    ((ReadParameters 1 3 (fix2Mod 5) (fix2Mod 6) [] []
        ⟨toLE32 1 ++ (toLE32 3 ++ (toLE32 ([65] : List Nat).length ++
          ([65] ++ []))), false⟩).2.1 =
      (ReadParameters 1 3 (fix2Mod 5) (fix2Mod 6) [] []
        ⟨toLE32 1 ++ (toLE32 3 ++ (toLE32 ([65] : List Nat).length ++
          ([66] ++ []))), false⟩).2.1) ∧
    ((ReadParameters 1 3 (fix2Mod 5) (fix2Mod 6) [] []
        ⟨toLE32 1 ++ (toLE32 3 ++ (toLE32 ([65] : List Nat).length ++
          ([65] ++ []))), false⟩).2.2.1 =
      (ReadParameters 1 3 (fix2Mod 5) (fix2Mod 6) [] []
        ⟨toLE32 1 ++ (toLE32 3 ++ (toLE32 ([65] : List Nat).length ++
          ([66] ++ []))), false⟩).2.2.1) :=
  arch_string_noninterference 1 3 (fix2Mod 5) (fix2Mod 6) [] [] 1 3
    [65] [66] [] rfl (by decide)

theorem toLE32_length (v : Nat) : (toLE32 v).length = 4 := rfl

theorem take_append_big (p q : List Nat) (k : Nat) (h : p.length ≤ k) :
    (p ++ q).take k = p ++ q.take (k - p.length) := by
  rw [List.take_append_eq_append_take, List.take_of_length_le h]

theorem take_append_small (p q : List Nat) (k : Nat) (h : k ≤ p.length) :
    (p ++ q).take k = p.take k := by
  rw [List.take_append_eq_append_take, Nat.sub_eq_zero_of_le h, List.take_zero,
    List.append_nil]

theorem rle_step (d : List Nat) :
    ((read_little_endian ⟨d, false⟩).2 = ⟨d.drop 4, false⟩ ∧ 4 ≤ d.length) ∨
    ((read_little_endian ⟨d, false⟩).2 = ⟨[], true⟩ ∧ d.length < 4) := by
  rcases d with _ | ⟨a, _ | ⟨b, _ | ⟨c, _ | ⟨e, tl⟩⟩⟩⟩
  · right; simp [read_little_endian]
  · right; simp [read_little_endian]
  · right; simp [read_little_endian]
  · right; simp [read_little_endian]
  · left
    refine ⟨by simp [read_little_endian], by simp⟩

theorem rle_fail_snd (d : List Nat) :
    (read_little_endian ⟨d, true⟩).2 = ⟨d, true⟩ := by
  simp [read_little_endian]

theorem rle3_short (d : List Nat) (h : d.length < 12) :
    ((read_little_endian
      (read_little_endian (read_little_endian ⟨d, false⟩).2).2).2).fail = true := by
  rcases rle_step d with ⟨h1, h1l⟩ | ⟨h1, h1l⟩
  · rw [h1]
    rcases rle_step (d.drop 4) with ⟨h2, h2l⟩ | ⟨h2, h2l⟩
    · rw [h2]
      rcases rle_step ((d.drop 4).drop 4) with ⟨h3, h3l⟩ | ⟨h3, h3l⟩
      · exfalso
        simp [List.length_drop] at h2l h3l
        omega
      · rw [h3]
    · rw [h2, rle_fail_snd]
  · rw [h1, rle_fail_snd, rle_fail_snd]

theorem readHeader_fail3 (kV : Nat) (s : IStream)
    (h : ((read_little_endian
      (read_little_endian (read_little_endian s).2).2).2).fail = true) :
    (ReadHeader kV s).1 = false := by
  simp [ReadHeader, h]

theorem readHeader_short_arch (kV hv n : Nat) (d : List Nat)
    (hkv : kV < 4294967296) (hn : n < 4294967296) (hd : d.length < n) :
    (ReadHeader kV
      ⟨toLE32 kV ++ (toLE32 hv ++ (toLE32 n ++ d)), false⟩).1 = false := by
  simp [ReadHeader, rle_append, Nat.mod_eq_of_lt hkv, Nat.mod_eq_of_lt hn,
    readBytes_short n d hd]

theorem rp_fail_header (kV kH : Nat) (m1 m2 : ModuleImpl) (st1 st2 : List Nat)
    (s : IStream) (h : (ReadHeader kV s).1 = false) :
    (ReadParameters kV kH m1 m2 st1 st2 s).1 = false := by
  simp [ReadParameters, h]

theorem rp_fail_mod1 (kV kH : Nat) (m1 m2 : ModuleImpl) (st1 st2 : List Nat)
    (s s1 : IStream) (arch : List Nat)
    (hh : ReadHeader kV s = (true, kH, arch, s1))
    (hd : (Detail.ReadParameters m1 st1 s1).1 = false) :
    (ReadParameters kV kH m1 m2 st1 st2 s).1 = false := by
  simp [ReadParameters, hh, hd]

theorem rp_fail_mod2 (kV kH : Nat) (m1 m2 : ModuleImpl)
    (st1 st2 st1a : List Nat) (s s1 s2 : IStream) (arch : List Nat)
    (hh : ReadHeader kV s = (true, kH, arch, s1))
    (hd1 : Detail.ReadParameters m1 st1 s1 = (true, st1a, s2))
    (hd2 : (Detail.ReadParameters m2 st2 s2).1 = false) :
    (ReadParameters kV kH m1 m2 st1 st2 s).1 = false := by
  simp [ReadParameters, hh, hd1, hd2]

theorem detail_fail_stream (m : ModuleImpl) (st : List Nat) (s : IStream)
    (h : ((read_little_endian s).2).fail = true) :
    (Detail.ReadParameters m st s).1 = false := by
  simp [Detail.ReadParameters, h]

theorem detail_fail_params (m : ModuleImpl) (st : List Nat) (s s2 : IStream)
    (hrle : read_little_endian s = (m.getHashValue, s2)) (hf : s2.fail = false)
    (hp : (m.readParams st s2).1 = false) :
    (Detail.ReadParameters m st s).1 = false := by
  simp [Detail.ReadParameters, hrle, hf, hp]

theorem readParameters_true_exhausted (kV kH : Nat) (m1 m2 : ModuleImpl)
    (d1 d2 : List Nat) (s : IStream)
    (h : (ReadParameters kV kH m1 m2 d1 d2 s).1 = true) :
    (ReadParameters kV kH m1 m2 d1 d2 s).2.2.2.data = [] ∧
    (ReadParameters kV kH m1 m2 d1 d2 s).2.2.2.fail = false := by
  simp only [ReadParameters] at h ⊢
  split_ifs at h ⊢ <;> simp_all [Bool.and_eq_true, List.isEmpty_iff]

theorem take_append_4 (v : Nat) (q : List Nat) (k : Nat) (h : 4 ≤ k) :
    (toLE32 v ++ q).take k = toLE32 v ++ q.take (k - 4) := by
  have := take_append_big (toLE32 v) q k (by rw [toLE32_length]; omega)
  simpa [toLE32_length] using this

theorem rp_truncated_blocks (kV kH : Nat) (m1 m2 : ModuleImpl)
    (st1 st2 d1 d2 A W1 W2 : List Nat) (k : Nat)
    (hr1 : ∀ d rest,
      m1.readParams d ⟨W1 ++ rest, false⟩ = (true, st1, ⟨rest, false⟩))
    (hs1 : ∀ d s, s.fail = false → s.data.length < W1.length →
      (m1.readParams d s).1 = false)
    (hs2 : ∀ d s, s.fail = false → s.data.length < W2.length →
      (m2.readParams d s).1 = false)
    (hv : kV < 4294967296) (hh : kH < 4294967296)
    (hm1 : m1.getHashValue < 4294967296) (hm2 : m2.getHashValue < 4294967296)
    (harch : A.length < 4294967296)
    (hk : k < 20 + A.length + W1.length + W2.length) :
    (ReadParameters kV kH m1 m2 d1 d2
      ⟨(toLE32 kV ++ (toLE32 kH ++ (toLE32 A.length ++ (A ++
        (toLE32 m1.getHashValue ++
          (W1 ++ (toLE32 m2.getHashValue ++ W2))))))).take k,
        false⟩).1 = false := by
  have hdet1 : ∀ T, Detail.ReadParameters m1 d1
      ⟨toLE32 m1.getHashValue ++ (W1 ++ T), false⟩ = (true, st1, ⟨T, false⟩) := by
    intro T
    unfold Detail.ReadParameters
    simp only [rle_append_lt m1.getHashValue hm1]
    simp [hr1 d1 T]
  by_cases c1 : k < 12
  · apply rp_fail_header
    apply readHeader_fail3
    apply rle3_short
    simp only [List.length_take]
    omega
  by_cases c2 : k < 12 + A.length
  · have e : (toLE32 kV ++ (toLE32 kH ++ (toLE32 A.length ++ (A ++
        (toLE32 m1.getHashValue ++
          (W1 ++ (toLE32 m2.getHashValue ++ W2))))))).take k =
        toLE32 kV ++ (toLE32 kH ++ (toLE32 A.length ++
          A.take (k - 4 - 4 - 4))) := by
      rw [take_append_4 _ _ _ (by omega), take_append_4 _ _ _ (by omega),
        take_append_4 _ _ _ (by omega),
        take_append_small _ _ _ (by omega)]
    rw [e]
    exact rp_fail_header _ _ _ _ _ _ _
      (readHeader_short_arch kV kH A.length (A.take (k - 4 - 4 - 4)) hv harch
        (by simp only [List.length_take]; omega))
  by_cases c3 : k < 16 + A.length
  · have e : (toLE32 kV ++ (toLE32 kH ++ (toLE32 A.length ++ (A ++
        (toLE32 m1.getHashValue ++
          (W1 ++ (toLE32 m2.getHashValue ++ W2))))))).take k =
        toLE32 kV ++ (toLE32 kH ++ (toLE32 A.length ++ (A ++
          (toLE32 m1.getHashValue).take (k - 4 - 4 - 4 - A.length)))) := by
      rw [take_append_4 _ _ _ (by omega), take_append_4 _ _ _ (by omega),
        take_append_4 _ _ _ (by omega),
        take_append_big _ _ _ (by omega),
        take_append_small _ _ _ (by rw [toLE32_length]; omega)]
    rw [e]
    refine rp_fail_mod1 kV kH m1 m2 d1 d2 _ _ A
      (readHeader_roundtrip kV kH A _ hv hh harch) ?_
    apply detail_fail_stream
    rw [rle_short _ (by simp only [List.length_take, toLE32_length]; omega)]
  by_cases c4 : k < 16 + A.length + W1.length
  · have e : (toLE32 kV ++ (toLE32 kH ++ (toLE32 A.length ++ (A ++
        (toLE32 m1.getHashValue ++
          (W1 ++ (toLE32 m2.getHashValue ++ W2))))))).take k =
        toLE32 kV ++ (toLE32 kH ++ (toLE32 A.length ++ (A ++
          (toLE32 m1.getHashValue ++
            W1.take (k - 4 - 4 - 4 - A.length - 4))))) := by
      rw [take_append_4 _ _ _ (by omega), take_append_4 _ _ _ (by omega),
        take_append_4 _ _ _ (by omega),
        take_append_big _ _ _ (by omega),
        take_append_4 _ _ _ (by omega),
        take_append_small _ _ _ (by omega)]
    rw [e]
    refine rp_fail_mod1 kV kH m1 m2 d1 d2 _ _ A
      (readHeader_roundtrip kV kH A _ hv hh harch) ?_
    exact detail_fail_params m1 d1 _
      ⟨W1.take (k - 4 - 4 - 4 - A.length - 4), false⟩
      (rle_append_lt m1.getHashValue hm1 _) rfl
      (hs1 d1 _ rfl (by simp only [List.length_take]; omega))
  by_cases c5 : k < 20 + A.length + W1.length
  · have e : (toLE32 kV ++ (toLE32 kH ++ (toLE32 A.length ++ (A ++
        (toLE32 m1.getHashValue ++
          (W1 ++ (toLE32 m2.getHashValue ++ W2))))))).take k =
        toLE32 kV ++ (toLE32 kH ++ (toLE32 A.length ++ (A ++
          (toLE32 m1.getHashValue ++ (W1 ++
            (toLE32 m2.getHashValue).take
              (k - 4 - 4 - 4 - A.length - 4 - W1.length)))))) := by
      rw [take_append_4 _ _ _ (by omega), take_append_4 _ _ _ (by omega),
        take_append_4 _ _ _ (by omega),
        take_append_big _ _ _ (by omega),
        take_append_4 _ _ _ (by omega),
        take_append_big _ _ _ (by omega),
        take_append_small _ _ _ (by rw [toLE32_length]; omega)]
    rw [e]
    refine rp_fail_mod2 kV kH m1 m2 d1 d2 st1 _ _ _ A
      (readHeader_roundtrip kV kH A _ hv hh harch) (hdet1 _) ?_
    apply detail_fail_stream
    rw [rle_short _ (by simp only [List.length_take, toLE32_length]; omega)]
  · have e : (toLE32 kV ++ (toLE32 kH ++ (toLE32 A.length ++ (A ++
        (toLE32 m1.getHashValue ++
          (W1 ++ (toLE32 m2.getHashValue ++ W2))))))).take k =
        toLE32 kV ++ (toLE32 kH ++ (toLE32 A.length ++ (A ++
          (toLE32 m1.getHashValue ++ (W1 ++ (toLE32 m2.getHashValue ++
            W2.take (k - 4 - 4 - 4 - A.length - 4 - W1.length - 4))))))) := by
      rw [take_append_4 _ _ _ (by omega), take_append_4 _ _ _ (by omega),
        take_append_4 _ _ _ (by omega),
        take_append_big _ _ _ (by omega),
        take_append_4 _ _ _ (by omega),
        take_append_big _ _ _ (by omega),
        take_append_4 _ _ _ (by omega)]
    rw [e]
    refine rp_fail_mod2 kV kH m1 m2 d1 d2 st1 _ _ _ A
      (readHeader_roundtrip kV kH A _ hv hh harch) (hdet1 _) ?_
    exact detail_fail_params m2 d2 _
      ⟨W2.take (k - 4 - 4 - 4 - A.length - 4 - W1.length - 4), false⟩
      (rle_append_lt m2.getHashValue hm2 _) rfl
      (hs2 d2 _ rfl (by simp only [List.length_take]; omega))

/-- C6: exact exhaustion.  (1) The container read returns success only
when the stream is good and exactly exhausted.  (2) Truncating a valid
written file at any byte offset before its final byte makes the read
fail — never a partial successful parse — given the modules' symmetry
contract and their rejection of short parameter blocks.  (3) Appending
one extra byte after a structurally valid file also makes the read
fail. -/
theorem exact_exhaustion (kVersion kHashValue : Nat) (m1 m2 : ModuleImpl)
    (st1 st2 : List Nat)
    (hsym1 : ReadsExactly m1 st1) (hshort1 : FailsShort m1 st1)
    (hsym2 : ReadsExactly m2 st2) (hshort2 : FailsShort m2 st2)
    (hv : kVersion < 4294967296) (hh : kHashValue < 4294967296)
    (hm1 : m1.getHashValue < 4294967296) (hm2 : m2.getHashValue < 4294967296)
    (harch : (GetArchitectureString m1 m2).length < 4294967296) :
    (∀ (d1 d2 : List Nat) (s : IStream),
        (ReadParameters kVersion kHashValue m1 m2 d1 d2 s).1 = true →
        (ReadParameters kVersion kHashValue m1 m2 d1 d2 s).2.2.2.data = [] ∧
        (ReadParameters kVersion kHashValue m1 m2 d1 d2 s).2.2.2.fail = false) ∧
    (∀ (d1 d2 : List Nat) (k : Nat),
        k < (WriteParameters kVersion kHashValue m1 m2 st1 st2).length →
        (ReadParameters kVersion kHashValue m1 m2 d1 d2
          ⟨(WriteParameters kVersion kHashValue m1 m2 st1 st2).take k,
            false⟩).1 = false) ∧
    (∀ (d1 d2 : List Nat) (b : Nat),
        (ReadParameters kVersion kHashValue m1 m2 d1 d2
          ⟨WriteParameters kVersion kHashValue m1 m2 st1 st2 ++ [b],
            false⟩).1 = false) := by
  refine ⟨?_, ?_, ?_⟩
  · intro d1 d2 s h
    exact readParameters_true_exhausted kVersion kHashValue m1 m2 d1 d2 s h
  · intro d1 d2 k hk
    have hw : WriteParameters kVersion kHashValue m1 m2 st1 st2 =
        toLE32 kVersion ++ (toLE32 kHashValue ++
          (toLE32 (GetArchitectureString m1 m2).length ++
            (GetArchitectureString m1 m2 ++ (toLE32 m1.getHashValue ++
              (m1.writeParams st1 ++ (toLE32 m2.getHashValue ++
                m2.writeParams st2)))))) := by
      simp [WriteParameters, WriteHeader, Detail.WriteParameters,
        Nat.mod_eq_of_lt harch, List.take_length, List.append_assoc]
    have hklt : k < 20 + (GetArchitectureString m1 m2).length +
        (m1.writeParams st1).length + (m2.writeParams st2).length := by
      rw [hw] at hk
      simp only [List.length_append, toLE32_length] at hk
      omega
    rw [hw]
    exact rp_truncated_blocks kVersion kHashValue m1 m2 st1 st2 d1 d2
      (GetArchitectureString m1 m2) (m1.writeParams st1) (m2.writeParams st2) k
      hsym1 hshort1 hshort2 hv hh hm1 hm2 harch hklt
  · intro d1 d2 b
    have h := readParameters_write_append kVersion kHashValue m1 m2 st1 st2
      d1 d2 [b] hsym1 hsym2 hv hh hm1 hm2 harch
    simp [h]

/-- Witness for C6: the three parts exercised on a concrete written
file of the two-byte test modules — length 44, truncated at byte 43,
and with one trailing byte appended. -/
theorem exact_exhaustion_witness :
    ((ReadParameters 1 3 (fix2Mod 5) (fix2Mod 6) [] []
        ⟨WriteParameters 1 3 (fix2Mod 5) (fix2Mod 6) [7, 8] [9, 10],
          false⟩).2.2.2.data = [] ∧
      (ReadParameters 1 3 (fix2Mod 5) (fix2Mod 6) [] []
        ⟨WriteParameters 1 3 (fix2Mod 5) (fix2Mod 6) [7, 8] [9, 10],
          false⟩).2.2.2.fail = false) ∧
    (ReadParameters 1 3 (fix2Mod 5) (fix2Mod 6) [] []
        ⟨(WriteParameters 1 3 (fix2Mod 5) (fix2Mod 6) [7, 8] [9, 10]).take 43,
          false⟩).1 = false ∧
    (ReadParameters 1 3 (fix2Mod 5) (fix2Mod 6) [] []
        ⟨WriteParameters 1 3 (fix2Mod 5) (fix2Mod 6) [7, 8] [9, 10] ++ [0],
          false⟩).1 = false := by
  have h := exact_exhaustion 1 3 (fix2Mod 5) (fix2Mod 6) [7, 8] [9, 10]
    (fix2_readsExactly 5 7 8) (fix2_failsShort 5 7 8)
    (fix2_readsExactly 6 9 10) (fix2_failsShort 6 9 10)
    (by decide) (by decide) (by decide) (by decide) (by decide)
  exact ⟨h.1 [] [] _ (by decide), h.2.1 [] [] 43 (by decide), h.2.2 [] [] 0⟩

end NNUE
